import Mathlib

/-!
Shallow embedding of the trail-mapper route pipeline.

Source files embedded here:
  * `route-service.js` — ORS request construction, response decoding,
    straight-line interpolation fallback, distance/duration formatting.
  * `settings.js` — batch re-route (`auditRoutes`), walk library load
    (`loadWalks`), the two circularity checks (`openDetail`, `auditRoutes`).
  * the AI-studio route assembly (`aiGenerate`, multi-waypoint variant) and
    the creator-view `generateRoute`.
  * `api/ors.js` — the same-origin routing proxy.

Numbers are modelled as exact rationals (`ℚ`).  JavaScript truthiness on
optional numeric fields is modelled explicitly (`undefined` and `0` are
falsy).  External primitives (`JSON.parse`, the network, the routing
service) are oracle parameters, so that "the routing client always fails"
is expressed by instantiating the oracle with an `Except.error` outcome.
-/

/-- A geographic point, `(lat, lon)` unless stated otherwise. -/
abbrev Point := ℚ × ℚ

/-- Decoded routing result as returned by `fetchHikingRoute` /
`fetchCircularRoute` in `route-service.js`:
`{ waypoints, distance (meters), duration (seconds), instructions }`. -/
structure RouteData where
  waypoints : List Point
  distance : ℚ
  duration : ℚ
  instructions : List String
  deriving Repr, DecidableEq

/-- JavaScript truthiness of an optional numeric field:
`undefined` and `0` are falsy, every other number is truthy. -/
def jsTruthy : Option ℚ → Bool
  | none => false
  | some q => q != 0

/-- JavaScript `a || b` for an optional numeric `a` and a numeric default. -/
def jsOr (a : Option ℚ) (b : ℚ) : ℚ :=
  match a with
  | some q => if q = 0 then b else q
  | none => b

/-- Model of `Math.round`: round half toward positive infinity. -/
def jsRound (q : ℚ) : ℤ := ⌊q + 1/2⌋

/-- Render the rational `t / 10` the way JavaScript prints the number
`Math.round(x * 10) / 10` (no trailing `.0`).  Intended for `t ≥ 0`. -/
def tenthsToString (t : ℤ) : String :=
  if t % 10 = 0 then s!"{t / 10}" else s!"{t / 10}.{t % 10}"

/-- Model of `x.toFixed(1)` for a nonnegative number: always one decimal digit. -/
def toFixed1 (q : ℚ) : String :=
  let t := jsRound (q * 10)
  s!"{t / 10}.{t % 10}"

/-- Function `formatDistance` from `route-service.js`:
meters ≥ 1000 become `"X.Y km"`, otherwise `"N m"`. -/
def formatDistance (meters : ℚ) : String :=
  if meters ≥ 1000 then s!"{toFixed1 (meters / 1000)} km"
  else s!"{jsRound meters} m"

/-- Function `formatDuration` from `route-service.js`:
`hours = seconds / 3600`; if `hours ≥ 1` print `Math.round(hours*10)/10`
followed by `" hours"`, else `Math.round(seconds/60)` followed by `" mins"`. -/
def formatDuration (seconds : ℚ) : String :=
  let hours := seconds / 3600
  if hours ≥ 1 then s!"{tenthsToString (jsRound (hours * 10))} hours"
  else s!"{jsRound (seconds / 60)} mins"

/-- Function `interpolateRoute(start, end, numPoints)` from `route-service.js`:
the straight-line fallback, `numPoints + 1` evenly spaced points from
`start` to `end` (loop `i = 0 .. numPoints` inclusive). -/
def interpolateRoute (start stop : Point) (numPoints : ℕ) : List Point :=
  (List.range (numPoints + 1)).map (fun (i : ℕ) =>
    let t : ℚ := (i : ℚ) / (numPoints : ℚ)
    (start.1 + (stop.1 - start.1) * t, start.2 + (stop.2 - start.2) * t))

/-! ## ORS requests and response decoding (`route-service.js`) -/

/-- The JSON body both fetch functions POST to the ORS endpoint:
`{ coordinates, preference: 'recommended', instructions: true }`.
`coordinates` is kept in the `[lon, lat]` order in which it is sent. -/
structure ORSRequest where
  coordinates : List Point
  preference : String
  instructions : Bool
  deriving Repr, DecidableEq

/-- Request built by `fetchHikingRoute(startLat, startLon, endLat, endLon,
viaPoints)`: `[start, ...via, end]`, each flipped to `[lon, lat]`. -/
def hikingRequest (startLat startLon endLat endLon : ℚ)
    (viaPoints : List Point) : ORSRequest :=
  { coordinates :=
      ((startLon, startLat) :: viaPoints.map (fun p => (p.2, p.1)))
        ++ [(endLon, endLat)],
    preference := "recommended",
    instructions := true }

/-- Request built by `fetchCircularRoute(startLat, startLon, destLat,
destLon)`: `start → destination → start`. -/
def circularRequest (startLat startLon destLat destLon : ℚ) : ORSRequest :=
  { coordinates :=
      [(startLon, startLat), (destLon, destLat), (startLon, startLat)],
    preference := "recommended",
    instructions := true }

/-- One entry of `feature.properties.segments`. -/
structure ORSSegment where
  steps : List String
  deriving Repr, DecidableEq

/-- The parts of an ORS GeoJSON feature the decoders read:
`geometry.coordinates` (in `[lon, lat]` order), `properties.summary`
and the optional `properties.segments`. -/
structure ORSFeature where
  coordinates : List Point
  distance : ℚ
  duration : ℚ
  segments : Option (List ORSSegment)
  deriving Repr, DecidableEq

/-- An ORS GeoJSON response: `data.features`. -/
structure ORSResponse where
  features : List ORSFeature
  deriving Repr, DecidableEq

/-- Decoding done by `fetchHikingRoute` on `data.features[0]`: flip every
coordinate to `[lat, lon]`, read the summary, and take
`segments?.[0]?.steps || []` — the FIRST segment's steps only.
`none` models the crash on an empty `features` array. -/
def decodeHiking (resp : ORSResponse) : Option RouteData :=
  resp.features.head?.map (fun f =>
    { waypoints := f.coordinates.map (fun c => (c.2, c.1)),
      distance := f.distance,
      duration := f.duration,
      instructions :=
        match f.segments with
        | some (s :: _) => s.steps
        | _ => [] })

/-- Decoding done by `fetchCircularRoute` on `data.features[0]`: identical
to `decodeHiking` except `segments?.flatMap(s => s.steps) || []` — the
steps of ALL segments concatenated. -/
def decodeCircular (resp : ORSResponse) : Option RouteData :=
  resp.features.head?.map (fun f =>
    { waypoints := f.coordinates.map (fun c => (c.2, c.1)),
      distance := f.distance,
      duration := f.duration,
      instructions :=
        match f.segments with
        | some segs => (segs.map (fun s => s.steps)).flatten
        | none => [] })

/-! ## The Walk record (`settings.js` / library) -/

/-- A persisted walk record with every field the batch re-route can see.
`endLat` / `endLon` are optional: older records may lack them. -/
structure Walk where
  name : String
  lat : ℚ
  lon : ℚ
  endLat : Option ℚ
  endLon : Option ℚ
  distance : String
  time : String
  difficulty : String
  elevation : String
  terrain : String
  desc : String
  directions : List (ℕ × String × String)
  parkingDetail : String
  thePayoff : String
  walkType : String
  start : String
  waypoints : List Point
  deriving Repr, DecidableEq

/-- Circularity as decided by the detail-view badge (`openDetail` in
`settings.js`): `w.endLat === w.lat && w.endLon === w.lon` — EXACT
equality, no tolerance (and `undefined === number` is false). -/
def detailIsCircular (w : Walk) : Bool :=
  decide (w.endLat = some w.lat) && decide (w.endLon = some w.lon)

/-- Circularity as decided by the batch re-route (`auditRoutes` in
`settings.js`): `!w.endLat || !w.endLon || (|lat-endLat| < 0.002 &&
|lon-endLon| < 0.002)` — missing or falsy end coordinates count as
circular, otherwise a 0.002-degree per-component tolerance. -/
def auditIsCircular (w : Walk) : Bool :=
  !jsTruthy w.endLat || !jsTruthy w.endLon ||
    (decide (|w.lat - jsOr w.endLat 0| < 0.002)
      && decide (|w.lon - jsOr w.endLon 0| < 0.002))

/-- One iteration of the `auditRoutes` batch loop, with the routing call
(the only throwing operation in the `try` block) abstracted as an oracle.
On success exactly `waypoints`, `distance` and `time` are overwritten; the
`catch` arm logs and leaves the record untouched. -/
def auditStep (oracle : Walk → Except String RouteData) (w : Walk) : Walk :=
  match oracle w with
  | .ok rd =>
      { w with waypoints := rd.waypoints,
               distance := formatDistance rd.distance,
               time := formatDuration rd.duration }
  | .error _ => w

/-- The whole `auditRoutes` batch: walks are processed one by one and a
per-item failure only increments the failure log — the loop never aborts,
so the result is the element-wise `auditStep`. -/
def auditRoutes (oracle : Walk → Except String RouteData)
    (walks : List Walk) : List Walk :=
  walks.map (auditStep oracle)

/-! ## AI-studio route assembly (`aiGenerate`, multi-waypoint variant) -/

/-- The draft walk produced by the AI client, with the hint fields the
assembly step reads.  Optional numeric fields model absent JSON keys. -/
structure AIWalk where
  name : String
  lat : ℚ
  lon : ℚ
  endLat : Option ℚ
  endLon : Option ℚ
  destinationLat : Option ℚ
  destinationLon : Option ℚ
  isCircular : Option Bool
  loopWaypoints : List Point
  distance : String
  time : String
  waypoints : List Point
  deriving Repr, DecidableEq

/-- Model of `const endLat = walk.endLat || walk.lat`. -/
def aiEndLat (w : AIWalk) : ℚ := jsOr w.endLat w.lat

/-- Model of `const endLon = walk.endLon || walk.lon`. -/
def aiEndLon (w : AIWalk) : ℚ := jsOr w.endLon w.lon

/-- Model of `walk.isCircular !== false && (|lat-endLat| < 0.002 &&
|lon-endLon| < 0.002)`: the hint is honored unless it is literally `false`. -/
def aiIsCircular (w : AIWalk) : Bool :=
  w.isCircular != some false
    && decide (|w.lat - aiEndLat w| < 0.002)
    && decide (|w.lon - aiEndLon w| < 0.002)

/-- Model of `const destLat = walk.destinationLat || endLat`. -/
def aiDestLat (w : AIWalk) : ℚ := jsOr w.destinationLat (aiEndLat w)

/-- Model of `const destLon = walk.destinationLon || endLon`. -/
def aiDestLon (w : AIWalk) : ℚ := jsOr w.destinationLon (aiEndLon w)

/-- Which routing call the AI assembly performs, with its point list. -/
inductive AIRequest where
  | multi (points : List Point)
  | circular (start dest : Point)
  | hiking (start stop : Point)
  deriving Repr, DecidableEq

/-- The routing request constructed by the step-2 `try` block of
`aiGenerate`: prefer `fetchMultiWaypointRoute([start, ...loopWaypoints]
(+ start if circular))` when the draft carries at least 2 via-points;
else a circular route to the destination hint, replaced by the fixed
`(+0.008, +0.005)` offset when the hint is within 0.001 of the start;
else a linear route `start → end`. -/
def aiRouteRequest (w : AIWalk) : AIRequest :=
  if 2 ≤ w.loopWaypoints.length then
    .multi (((w.lat, w.lon) :: w.loopWaypoints)
      ++ (if aiIsCircular w then [(w.lat, w.lon)] else []))
  else if aiIsCircular w then
    if decide (|aiDestLat w - w.lat| > 0.001)
        || decide (|aiDestLon w - w.lon| > 0.001) then
      .circular (w.lat, w.lon) (aiDestLat w, aiDestLon w)
    else
      .circular (w.lat, w.lon) (w.lat + 0.008, w.lon + 0.005)
  else
    .hiking (w.lat, w.lon) (aiEndLat w, aiEndLon w)

/-- The waypoint list built by the `catch (routeErr)` arm of `aiGenerate`:
with ≥ 2 via-points, `[start, ...loopWaypoints]` plus `start` again when
`walk.endLat === walk.lat && walk.endLon === walk.lon`; otherwise
`[start]` plus `[endLat, endLon]` when both are truthy. -/
def aiFallbackWaypoints (w : AIWalk) : List Point :=
  if 2 ≤ w.loopWaypoints.length then
    ((w.lat, w.lon) :: w.loopWaypoints)
      ++ (if w.endLat = some w.lat ∧ w.endLon = some w.lon
          then [(w.lat, w.lon)] else [])
  else
    (w.lat, w.lon) ::
      (match w.endLat, w.endLon with
       | some a, some b => if a ≠ 0 ∧ b ≠ 0 then [(a, b)] else []
       | _, _ => [])

/-- Step 2 of `aiGenerate` as a whole (entered when `walk.lat && walk.lon`
are truthy), with the routing outcome abstracted: on success overwrite
`waypoints`, `distance`, `time` from the route; on any routing error fall
back to `aiFallbackWaypoints` — the error is caught, never re-thrown. -/
def aiAssemble (w : AIWalk) (routing : Except String RouteData) : AIWalk :=
  match routing with
  | .ok rd =>
      { w with waypoints := rd.waypoints,
               distance := formatDistance rd.distance,
               time := formatDuration rd.duration }
  | .error _ => { w with waypoints := aiFallbackWaypoints w }

/-- Waypoints produced by the creator-view `generateRoute`: with a key,
the routing result, or `interpolateRoute(startCoords, endCoords)` in the
`catch` arm; without a key, the interpolation directly.  Total — the
routing error never escapes. -/
def generateRouteWaypoints (startC endC : Point) (hasKey : Bool)
    (routing : Except String RouteData) : List Point :=
  if hasKey then
    match routing with
    | .ok rd => rd.waypoints
    | .error _ => interpolateRoute startC endC 20
  else interpolateRoute startC endC 20

/-- Coordinate list built by `scripts/audit-v2.cjs` (`main`): car park,
then the loop points (all flipped to `[lon, lat]` for ORS), then the car
park again unless the route is marked linear. -/
def auditV2Coords (carPark : Point) (loop : List Point)
    (isLinear : Bool) : List Point :=
  (((carPark.2, carPark.1) :: loop.map (fun p => (p.2, p.1)))
    ++ (if !isLinear then [(carPark.2, carPark.1)] else []))

/-! ## JSON values, fence stripping, AI response validation -/

/-- A JSON value, for modelling `JSON.parse` results. -/
inductive Json where
  | null
  | bool (b : Bool)
  | num (q : ℚ)
  | str (s : String)
  | arr (elements : List Json)
  | obj (fields : List (String × Json))
  deriving Repr

/-- Property access `j[k]` on a parsed value: `none` models `undefined`. -/
def Json.get : Json → String → Option Json
  | .obj fields, k => fields.lookup k
  | _, _ => none

/-- JavaScript truthiness of a possibly-undefined JSON value. -/
def jsonTruthy : Option Json → Bool
  | none => false
  | some .null => false
  | some (.bool b) => b
  | some (.num q) => q != 0
  | some (.str s) => s != ""
  | some (.arr _) => true
  | some (.obj _) => true

/-- Left-to-right global replacement of the token `tok` followed by an
optional newline — the behaviour of `text.replace(<tok>\n?/g, '')`.
`fuel` bounds the recursion; `fuel = length of the text` suffices. -/
def stripTokenAux (tok : List Char) : ℕ → List Char → List Char
  | 0, l => l
  | _ + 1, [] => []
  | fuel + 1, c :: rest =>
    if tok ≠ [] ∧ tok.isPrefixOf (c :: rest) then
      match (c :: rest).drop tok.length with
      | '\n' :: tail => stripTokenAux tok fuel tail
      | after => stripTokenAux tok fuel after
    else c :: stripTokenAux tok fuel rest

/-- Model of `s.replace(/<tok>\n?/g, '')` as a string function. -/
def replaceToken (tok : String) (s : String) : String :=
  String.mk (stripTokenAux tok.data (s.data.length + 1) s.data)

/-- Model of `.trim()` on the character list: drop whitespace from both ends. -/
def trimChars (l : List Char) : List Char :=
  ((l.dropWhile Char.isWhitespace).reverse.dropWhile Char.isWhitespace).reverse

/-- Model of `.trim()` as a string function. -/
def jsTrim (s : String) : String := String.mk (trimChars s.data)

/-- The fence stripping in `generateWalkFromPrompt`:
`text.replace(/```json\n?/g, '').replace(/```\n?/g, '').trim()`. -/
def stripFences (text : String) : String :=
  jsTrim (replaceToken "```" (replaceToken "```json" text))

/-- Function `generateWalkFromPrompt` from `gemini-api.js`, after the Gemini call:
`text` is the extracted response text (empty string models the
no-text-part case), `parse` is the `JSON.parse` oracle (`none` models a
`SyntaxError`).  Throws iff the text is empty, the cleaned text does not
parse, or `!walk.name || !walk.lat || !walk.lon`. -/
def generateWalkFromPrompt (parse : String → Option Json)
    (text : String) : Except String Json :=
  if text = "" then .error "Gemini returned an empty response."
  else
    match parse (stripFences text) with
    | none => .error "SyntaxError: unparseable JSON"
    | some walk =>
      if jsonTruthy (walk.get "name") && jsonTruthy (walk.get "lat")
          && jsonTruthy (walk.get "lon") then .ok walk
      else .error "Gemini response missing required fields (name, lat, lon)."

/-! ## The same-origin routing proxy (`api/ors.js`) -/

/-- What the upstream routing service did for a forwarded request:
a transport-level failure (network error, or a body `response.json()`
could not decode — both are caught by the handler's `catch`), or a
reply with a status code and a decoded JSON body. -/
inductive ServiceOutcome where
  | netError (msg : String)
  | reply (status : ℕ) (body : Json)

/-- The handler's reply: status code plus optional JSON body
(`OPTIONS` replies with an empty body). -/
structure ProxyResult where
  status : ℕ
  body : Option Json

/-- The JSON error body carrying a message field. -/
def errorJson (msg : String) : Json := .obj [("error", .str msg)]

/-- The `api/ors.js` handler.  `key` is `process.env.ORS_API_KEY`
(`none` models unset or empty).  `service` is the upstream fetch applied
to the forwarded body — the handler forwards `req.body` verbatim.
`response.ok` is `200 ≤ status ≤ 299`; an ok reply is re-sent with
status 200, a non-ok reply with the upstream status. -/
def orsHandler (method : String) (key : Option String) (reqBody : Json)
    (service : Json → ServiceOutcome) : ProxyResult :=
  if method = "OPTIONS" then { status := 200, body := none }
  else if method ≠ "POST" then
    { status := 405, body := some (errorJson "Method not allowed") }
  else
    match key with
    | none => { status := 500, body := some (errorJson "ORS API key not configured") }
    | some _ =>
      match service reqBody with
      | .netError m => { status := 500, body := some (errorJson m) }
      | .reply status data =>
        if 200 ≤ status ∧ status ≤ 299 then { status := 200, body := some data }
        else { status := status, body := some data }

/-! ## Walk library load (`loadWalks` in `settings.js`) -/

/-- Constant `WALKS_VERSION` in the library module. -/
def WALKS_VERSION : String := "1.1"

/-- The two localStorage cells `loadWalks` touches. -/
structure WalkStore where
  version : Option String
  snapshot : Option String
  deriving Repr, DecidableEq

/-- Function `loadWalks`: invalidate the snapshot on a version mismatch; parse the
snapshot inside `try` with `catch { walks = [] }`; if the resulting list
is empty, take the bundled `defaults` (the `/data/walks.json` fetch) and
re-persist them.  `parse` is the `JSON.parse` oracle restricted to
walk-list snapshots, `stringify` the `JSON.stringify` used to persist. -/
def loadWalks (parse : String → Option (List Walk))
    (stringify : List Walk → String) (defaults : List Walk)
    (st : WalkStore) : List Walk × WalkStore :=
  let st1 := if st.version ≠ some WALKS_VERSION
             then { version := some WALKS_VERSION, snapshot := none }
             else st
  let walks := match st1.snapshot with
    | some s => (parse s).getD []
    | none => []
  if walks.length = 0 then
    (defaults, { st1 with snapshot := some (stringify defaults) })
  else (walks, st1)

/-! ## Shared evaluation lemmas -/

theorem interpolateRoute_length (s e : Point) (n : ℕ) :
    (interpolateRoute s e n).length = n + 1 := by
  rw [interpolateRoute, List.length_map, List.length_range]

/-! ## C5 — distance/duration formatting -/

/-- C5: on routing success the draft's `distance`/`time` strings are
overwritten with `formatDistance`/`formatDuration` of the route summary;
the branch bound `hours ≥ 1` is exactly `seconds ≥ 3600`; and the fixed
formats give `950 → "950 m"`, `1000 → "1.0 km"`, `12345 → "12.3 km"`,
`1800 → "30 mins"`, `3600 → "1 hours"`, `5400 → "1.5 hours"`. -/
theorem C5_format_strings :
    formatDistance 950 = "950 m" ∧ formatDistance 1000 = "1.0 km"
    ∧ formatDistance 12345 = "12.3 km" ∧ formatDuration 1800 = "30 mins"
    ∧ formatDuration 3600 = "1 hours" ∧ formatDuration 5400 = "1.5 hours"
    ∧ (∀ s : ℚ, s / 3600 ≥ 1 ↔ s ≥ 3600)
    ∧ (∀ (w : AIWalk) (rd : RouteData),
        (aiAssemble w (.ok rd)).distance = formatDistance rd.distance
        ∧ (aiAssemble w (.ok rd)).time = formatDuration rd.duration) := by
  refine ⟨?_, ?_, ?_, ?_, ?_, ?_, ?_, fun w rd => ⟨rfl, rfl⟩⟩
  · have h : jsRound (950 : ℚ) = 950 := by norm_num [jsRound]
    simp only [formatDistance]
    rw [if_neg (by norm_num), h]
    rfl
  · have h0 : ((1000 : ℚ) / 1000) = 1 := by norm_num
    have h : jsRound ((1 : ℚ) * 10) = 10 := by norm_num [jsRound]
    simp only [formatDistance, toFixed1]
    rw [if_pos (by norm_num), h0, h]
    rfl
  · have h : jsRound ((12345 : ℚ) / 1000 * 10) = 123 := by
      norm_num [jsRound]
    simp only [formatDistance, toFixed1]
    rw [if_pos (by norm_num), h]
    rfl
  · have h : jsRound ((1800 : ℚ) / 60) = 30 := by norm_num [jsRound]
    simp only [formatDuration]
    rw [if_neg (by norm_num), h]
    rfl
  · have h : jsRound ((3600 : ℚ) / 3600 * 10) = 10 := by norm_num [jsRound]
    simp only [formatDuration]
    rw [if_pos (by norm_num), h]
    rfl
  · have h : jsRound ((5400 : ℚ) / 3600 * 10) = 15 := by norm_num [jsRound]
    simp only [formatDuration]
    rw [if_pos (by norm_num), h]
    rfl
  · intro s
    rw [ge_iff_le, le_div_iff₀ (by norm_num : (0:ℚ) < 3600)]
    constructor <;> intro h <;> linarith

/-! ## C1 — total-routing-failure fallback -/

/-- C1: when every routing call fails, the creator view falls back to the
21-point straight-line interpolation (≥ 2 points, the routing error is
swallowed), and the AI assembly falls back to `aiFallbackWaypoints`:
at least 2 points whenever truthy end coordinates exist (and exactly the
straight segment `[start, end]` when no via-points are supplied), and at
least 1 point for every draft.  Both assembly functions are total — no
routing error reaches the caller. -/
theorem C1_failure_fallback (sc ec : Point) (err : String) (w : AIWalk)
    (a b : ℚ) (hLat : w.endLat = some a) (hLon : w.endLon = some b)
    (ha : a ≠ 0) (hb : b ≠ 0) :
    generateRouteWaypoints sc ec true (.error err) = interpolateRoute sc ec 20
    ∧ (generateRouteWaypoints sc ec true (.error err)).length = 21
    ∧ (aiAssemble w (.error err)).waypoints = aiFallbackWaypoints w
    ∧ 2 ≤ (aiFallbackWaypoints w).length
    ∧ (∀ v : AIWalk, 1 ≤ (aiFallbackWaypoints v).length)
    ∧ (w.loopWaypoints.length < 2 →
        aiFallbackWaypoints w = [(w.lat, w.lon), (a, b)]) := by
  refine ⟨rfl, interpolateRoute_length sc ec 20, rfl, ?_, ?_, ?_⟩
  · by_cases hl : 2 ≤ w.loopWaypoints.length
    · simp only [aiFallbackWaypoints, if_pos hl, List.length_append,
        List.length_cons]
      omega
    · simp only [aiFallbackWaypoints, if_neg hl, hLat, hLon]
      simp [ha, hb]
  · intro v
    by_cases hl : 2 ≤ v.loopWaypoints.length
    · simp only [aiFallbackWaypoints, if_pos hl, List.length_append,
        List.length_cons]
      omega
    · simp only [aiFallbackWaypoints, if_neg hl]
      simp
  · intro hl2
    have hl : ¬ 2 ≤ w.loopWaypoints.length := by omega
    simp only [aiFallbackWaypoints, if_neg hl, hLat, hLon]
    simp [ha, hb]

def c1Walk : AIWalk :=
  { name := "Orrest Head", lat := 54, lon := -3, endLat := some 55,
    endLon := some (-2), destinationLat := none, destinationLon := none,
    isCircular := none, loopWaypoints := [], distance := "", time := "",
    waypoints := [] }

/-- Witness for C1 at a concrete draft with known, distinct endpoints. -/
theorem C1_failure_fallback_witness :
    (aiAssemble c1Walk (.error "network down")).waypoints
      = aiFallbackWaypoints c1Walk
    ∧ 2 ≤ (aiFallbackWaypoints c1Walk).length
    ∧ aiFallbackWaypoints c1Walk = [(54, -3), (55, -2)] := by
  have h := C1_failure_fallback (0, 0) (1, 1) "network down" c1Walk 55 (-2)
    rfl rfl (by norm_num) (by norm_num)
  exact ⟨h.2.2.1, h.2.2.2.1, h.2.2.2.2.2 (by decide)⟩

/-! ## C2 — the three circularity checks -/

def detailCexWalk : Walk :=
  { name := "cex", lat := 54.4, lon := -3, endLat := some 54.4005,
    endLon := some (-3), distance := "", time := "", difficulty := "",
    elevation := "", terrain := "", desc := "", directions := [],
    parkingDetail := "", thePayoff := "", walkType := "", start := "",
    waypoints := [] }

/-- C2 counterexample: a walk whose start and end coincide within ε
(0.0005 < 0.001 per component) but whose detail-view badge check —
exact equality — evaluates FALSE, contradicting "evaluates to true at
every site where circularity is decided". -/
theorem C2_counterexample :
    detailCexWalk.endLat = some 54.4005 ∧ detailCexWalk.endLon = some (-3)
    ∧ |detailCexWalk.lat - 54.4005| < 0.001
    ∧ |detailCexWalk.lon - (-3 : ℚ)| < 0.001
    ∧ detailIsCircular detailCexWalk = false := by
  refine ⟨rfl, rfl, by norm_num [detailCexWalk, abs_lt],
    by norm_num [detailCexWalk, abs_lt], ?_⟩
  simp only [detailIsCircular, detailCexWalk]
  norm_num

/-- C2 amended: the 0.002-tolerance equivalence holds at the batch
re-route site (for truthy end coordinates) and at the AI-assembly site
(absent an explicit `isCircular: false` hint), and the two sites agree;
but the detail-view badge decides circularity by EXACT equality of end
and start coordinates. -/
theorem C2_amended (w : Walk) (v : AIWalk) (a b : ℚ)
    (hwLat : w.endLat = some a) (hwLon : w.endLon = some b)
    (ha : a ≠ 0) (hb : b ≠ 0)
    (hvLat : v.endLat = some a) (hvLon : v.endLon = some b)
    (hhint : v.isCircular = none) :
    (auditIsCircular w = true ↔ (|w.lat - a| < 0.002 ∧ |w.lon - b| < 0.002))
    ∧ (aiIsCircular v = true ↔ (|v.lat - a| < 0.002 ∧ |v.lon - b| < 0.002))
    ∧ (∀ u : Walk, detailIsCircular u = true
        ↔ (u.endLat = some u.lat ∧ u.endLon = some u.lon)) := by
  refine ⟨?_, ?_, ?_⟩
  · simp [auditIsCircular, jsTruthy, jsOr, hwLat, hwLon, ha, hb]
  · simp [aiIsCircular, aiEndLat, aiEndLon, jsOr, hvLat, hvLon, ha, hb, hhint]
  · intro u
    simp [detailIsCircular]

def auditNearWalk : Walk :=
  { name := "near", lat := 54, lon := -3, endLat := some 54.001,
    endLon := some (-3), distance := "", time := "", difficulty := "",
    elevation := "", terrain := "", desc := "", directions := [],
    parkingDetail := "", thePayoff := "", walkType := "", start := "",
    waypoints := [] }

def aiNearWalk : AIWalk :=
  { name := "near", lat := 54, lon := -3, endLat := some 54.001,
    endLon := some (-3), destinationLat := none, destinationLon := none,
    isCircular := none, loopWaypoints := [], distance := "", time := "",
    waypoints := [] }

/-- Witness for the amended C2 at a concrete within-tolerance walk. -/
theorem C2_amended_witness :
    auditIsCircular auditNearWalk = true ∧ aiIsCircular aiNearWalk = true := by
  have h := C2_amended auditNearWalk aiNearWalk 54.001 (-3) rfl rfl
    (by norm_num) (by norm_num) rfl rfl rfl
  refine ⟨h.1.mpr ?_, h.2.1.mpr ?_⟩
  · constructor <;> norm_num [auditNearWalk, abs_lt]
  · constructor <;> norm_num [aiNearWalk, abs_lt]

/-! ## C3 — routeCircular vs routeBetween(start, start, [destination]) -/

def twoSegFeature : ORSFeature :=
  { coordinates := [(1, 2)], distance := 100, duration := 200,
    segments := some [⟨["left"]⟩, ⟨["right"]⟩] }

def twoSegResp : ORSResponse := { features := [twoSegFeature] }

def hikingTwoSegResult : RouteData :=
  { waypoints := [(2, 1)], distance := 100, duration := 200,
    instructions := ["left"] }

def circularTwoSegResult : RouteData :=
  { waypoints := [(2, 1)], distance := 100, duration := 200,
    instructions := ["left", "right"] }

/-- C3 counterexample: the two functions send the identical request, but
on a response with two non-empty segments `fetchHikingRoute` returns only
the first segment's steps while `fetchCircularRoute` concatenates all of
them — the turn instructions differ, so the results are not the same. -/
theorem C3_counterexample :
    hikingRequest 54 (-3) 54 (-3) [(55, -2)] = circularRequest 54 (-3) 55 (-2)
    ∧ decodeHiking twoSegResp = some hikingTwoSegResult
    ∧ decodeCircular twoSegResp = some circularTwoSegResult
    ∧ hikingTwoSegResult.instructions ≠ circularTwoSegResult.instructions
    ∧ decodeHiking twoSegResp ≠ decodeCircular twoSegResp := by
  refine ⟨rfl, rfl, rfl, by decide, ?_⟩
  decide

/-- C3 amended: `routeCircular(start, destination)` and
`routeBetween(start, start, [destination])` send the identical
three-coordinate request and agree on waypoints, summed distance and
summed duration; their turn instructions agree whenever the response
carries at most one segment, but in general `routeBetween` keeps only the
first segment's steps while `routeCircular` concatenates all segments. -/
theorem C3_amended (sLat sLon dLat dLon : ℚ) (resp : ORSResponse)
    (r1 r2 : RouteData)
    (h1 : decodeHiking resp = some r1) (h2 : decodeCircular resp = some r2) :
    hikingRequest sLat sLon sLat sLon [(dLat, dLon)]
      = circularRequest sLat sLon dLat dLon
    ∧ r1.waypoints = r2.waypoints
    ∧ r1.distance = r2.distance
    ∧ r1.duration = r2.duration
    ∧ (∀ f, resp.features.head? = some f → (f.segments.getD []).length ≤ 1 →
        r1.instructions = r2.instructions) := by
  cases hf : resp.features.head? with
  | none =>
    rw [decodeHiking, hf] at h1
    simp at h1
  | some f =>
    rw [decodeHiking, hf] at h1
    rw [decodeCircular, hf] at h2
    simp only [Option.map_some', Option.some.injEq] at h1 h2
    subst h1
    subst h2
    refine ⟨rfl, rfl, rfl, rfl, ?_⟩
    intro f2 hf2 hlen
    injection hf2 with hff
    subst hff
    match hs : f.segments with
    | none => rfl
    | some [] => rfl
    | some [s] => simp
    | some (s1 :: s2 :: rest) =>
      rw [hs] at hlen
      simp at hlen

def oneSegResp : ORSResponse :=
  { features := [{ coordinates := [(4, 3)], distance := 500, duration := 600,
                   segments := some [⟨["ahead"]⟩] }] }

def oneSegResult : RouteData :=
  { waypoints := [(3, 4)], distance := 500, duration := 600,
    instructions := ["ahead"] }

/-- Witness for the amended C3 at a concrete single-segment response. -/
theorem C3_amended_witness :
    hikingRequest 54 (-3) 54 (-3) [(55, -2)] = circularRequest 54 (-3) 55 (-2)
    ∧ oneSegResult.waypoints = oneSegResult.waypoints := by
  have h := C3_amended 54 (-3) 55 (-2) oneSegResp oneSegResult oneSegResult
    rfl rfl
  exact ⟨h.1, h.2.1⟩

/-! ## C4 — routed point sequence for drafts with via-points -/

def linearLoopWalk : AIWalk :=
  { name := "lin", lat := 54, lon := -3, endLat := some 55,
    endLon := some (-2), destinationLat := none, destinationLon := none,
    isCircular := none, loopWaypoints := [(1, 1), (2, 2)], distance := "",
    time := "", waypoints := [] }

theorem linearLoopWalk_not_circular : aiIsCircular linearLoopWalk = false := by
  simp only [aiIsCircular, aiEndLat, aiEndLon, jsOr, linearLoopWalk]
  norm_num

/-- C4 counterexample: a linear draft (end `(55, -2)` differs from start
`(54, -3)` by far more than ε) with two via-points is routed as
`[start, via1, via2]` — the end coordinate is NOT appended as the final
routed point, contradicting the claim. -/
theorem C4_counterexample :
    linearLoopWalk.endLat = some 55 ∧ linearLoopWalk.endLon = some (-2)
    ∧ aiRouteRequest linearLoopWalk = .multi [(54, -3), (1, 1), (2, 2)]
    ∧ AIRequest.multi [(54, -3), (1, 1), (2, 2)]
        ≠ .multi [(54, -3), (1, 1), (2, 2), (55, -2)] := by
  refine ⟨rfl, rfl, ?_, by decide⟩
  simp only [aiRouteRequest]
  rw [if_pos (by decide : 2 ≤ linearLoopWalk.loopWaypoints.length),
    linearLoopWalk_not_circular]
  simp [linearLoopWalk]

/-- C4 amended: with at least 2 via-points the multi-waypoint routing
call receives `[start, via-points in order]` plus `start` again exactly
when the draft is circular; for a linear draft NOTHING is appended — the
last via-point is the final routed point.  The standalone re-route script
(`audit-v2.cjs`) builds its coordinate list the same way: for a linear
route the car park is not re-appended and the loop's last entry ends the
sequence. -/
theorem C4_amended (w : AIWalk) (h : 2 ≤ w.loopWaypoints.length) :
    aiRouteRequest w = .multi (((w.lat, w.lon) :: w.loopWaypoints)
      ++ (if aiIsCircular w then [(w.lat, w.lon)] else []))
    ∧ (aiIsCircular w = false →
        aiRouteRequest w = .multi ((w.lat, w.lon) :: w.loopWaypoints))
    ∧ (∀ (cp : Point) (loop : List Point),
        auditV2Coords cp loop true
          = (cp.2, cp.1) :: loop.map (fun p => (p.2, p.1))) := by
  refine ⟨by simp [aiRouteRequest, h], ?_, ?_⟩
  · intro hc
    simp [aiRouteRequest, h, hc]
  · intro cp loop
    simp [auditV2Coords]

/-- Witness for the amended C4 at the concrete linear draft. -/
theorem C4_amended_witness :
    aiRouteRequest linearLoopWalk
      = .multi ((linearLoopWalk.lat, linearLoopWalk.lon)
          :: linearLoopWalk.loopWaypoints) :=
  (C4_amended linearLoopWalk (by decide)).2.1 linearLoopWalk_not_circular

/-! ## C6 — frame property of the batch re-route -/

/-- C6: the batch processes every walk independently (a per-item failure
never aborts the loop); on routing success exactly `waypoints`,
`distance` and `time` are replaced — every other field is unchanged —
and on routing failure the record is entirely unchanged. -/
theorem C6_audit_frame (oracle : Walk → Except String RouteData)
    (ws : List Walk) (w : Walk) :
    auditRoutes oracle ws = ws.map (auditStep oracle)
    ∧ (auditRoutes oracle ws).length = ws.length
    ∧ (∀ rd, oracle w = .ok rd →
        (auditStep oracle w).waypoints = rd.waypoints
        ∧ (auditStep oracle w).distance = formatDistance rd.distance
        ∧ (auditStep oracle w).time = formatDuration rd.duration
        ∧ (auditStep oracle w).name = w.name
        ∧ (auditStep oracle w).lat = w.lat
        ∧ (auditStep oracle w).lon = w.lon
        ∧ (auditStep oracle w).endLat = w.endLat
        ∧ (auditStep oracle w).endLon = w.endLon
        ∧ (auditStep oracle w).difficulty = w.difficulty
        ∧ (auditStep oracle w).elevation = w.elevation
        ∧ (auditStep oracle w).terrain = w.terrain
        ∧ (auditStep oracle w).desc = w.desc
        ∧ (auditStep oracle w).directions = w.directions
        ∧ (auditStep oracle w).parkingDetail = w.parkingDetail
        ∧ (auditStep oracle w).thePayoff = w.thePayoff
        ∧ (auditStep oracle w).walkType = w.walkType
        ∧ (auditStep oracle w).start = w.start)
    ∧ (∀ e, oracle w = .error e → auditStep oracle w = w) := by
  refine ⟨rfl, by simp [auditRoutes], ?_, ?_⟩
  · intro rd hok
    simp [auditStep, hok]
  · intro e herr
    simp [auditStep, herr]

def auditWalk : Walk :=
  { name := "Orrest Head", lat := 54.3803, lon := -2.904,
    endLat := some 54.3803, endLon := some (-2.904), distance := "old",
    time := "old", difficulty := "Easy", elevation := "238m",
    terrain := "Woodland", desc := "A classic.", directions := [],
    parkingDetail := "Broad Street", thePayoff := "The view.",
    walkType := "summit", start := "Broad Street car park",
    waypoints := [(54.3803, -2.904)] }

def okOracle : Walk → Except String RouteData := fun _ =>
  .ok { waypoints := [(1, 1), (2, 2)], distance := 1000, duration := 3600,
        instructions := [] }

def failOracle : Walk → Except String RouteData := fun _ =>
  .error "ORS API error (429): quota exceeded"

/-- Witness for C6 at a concrete walk with a succeeding and a failing
routing oracle. -/
theorem C6_audit_frame_witness :
    (auditStep okOracle auditWalk).waypoints = [(1, 1), (2, 2)]
    ∧ (auditStep okOracle auditWalk).name = auditWalk.name
    ∧ auditStep failOracle auditWalk = auditWalk := by
  have hok := (C6_audit_frame okOracle [auditWalk] auditWalk).2.2.1
    { waypoints := [(1, 1), (2, 2)], distance := 1000, duration := 3600,
      instructions := [] } rfl
  have herr := (C6_audit_frame failOracle [auditWalk] auditWalk).2.2.2
    "ORS API error (429): quota exceeded" rfl
  exact ⟨hok.1, hok.2.2.2.1, herr⟩

/-! ## C7 — AI walk suggestion: fence stripping and validation -/

theorem generateWalk_ok (parse : String → Option Json) (text : String)
    (hne : text ≠ "") (j : Json) (hp : parse (stripFences text) = some j)
    (ht : (jsonTruthy (j.get "name") && jsonTruthy (j.get "lat")
        && jsonTruthy (j.get "lon")) = true) :
    generateWalkFromPrompt parse text = .ok j := by
  rw [generateWalkFromPrompt, if_neg hne, hp]
  simp [ht]

theorem generateWalk_err_missing (parse : String → Option Json)
    (text : String) (hne : text ≠ "") (j : Json)
    (hp : parse (stripFences text) = some j)
    (ht : (jsonTruthy (j.get "name") && jsonTruthy (j.get "lat")
        && jsonTruthy (j.get "lon")) = false) :
    generateWalkFromPrompt parse text
      = .error "Gemini response missing required fields (name, lat, lon)." := by
  rw [generateWalkFromPrompt, if_neg hne, hp]
  simp [ht]

theorem generateWalk_err_badjson (parse : String → Option Json)
    (text : String) (hne : text ≠ "")
    (hp : parse (stripFences text) = none) :
    generateWalkFromPrompt parse text
      = .error "SyntaxError: unparseable JSON" := by
  rw [generateWalkFromPrompt, if_neg hne, hp]

/-- C7: `generateWalkFromPrompt` parses the fence-stripped text and
succeeds exactly when the cleaned text parses as JSON whose `name`,
`lat` and `lon` members are all truthy — in which case it returns the
parsed draft; in every other case (unparseable JSON, or a missing/falsy
required field) it throws. -/
theorem C7_suggest_walk (parse : String → Option Json) (text : String)
    (hne : text ≠ "") :
    (∀ w, generateWalkFromPrompt parse text = .ok w ↔
      (parse (stripFences text) = some w
        ∧ jsonTruthy (w.get "name") = true
        ∧ jsonTruthy (w.get "lat") = true
        ∧ jsonTruthy (w.get "lon") = true))
    ∧ ((∃ e, generateWalkFromPrompt parse text = .error e) ↔
        ¬ ∃ w, parse (stripFences text) = some w
            ∧ jsonTruthy (w.get "name") = true
            ∧ jsonTruthy (w.get "lat") = true
            ∧ jsonTruthy (w.get "lon") = true) := by
  constructor
  · intro w
    constructor
    · intro h
      cases hp : parse (stripFences text) with
      | none =>
        rw [generateWalk_err_badjson parse text hne hp] at h
        cases h
      | some j =>
        by_cases ht : (jsonTruthy (j.get "name") && jsonTruthy (j.get "lat")
            && jsonTruthy (j.get "lon")) = true
        · rw [generateWalk_ok parse text hne j hp ht] at h
          cases h
          simp only [Bool.and_eq_true] at ht
          exact ⟨rfl, ht.1.1, ht.1.2, ht.2⟩
        · rw [Bool.not_eq_true] at ht
          rw [generateWalk_err_missing parse text hne j hp ht] at h
          cases h
    · rintro ⟨hp, hname, hlat, hlon⟩
      exact generateWalk_ok parse text hne w hp
        (by rw [hname, hlat, hlon]; rfl)
  · constructor
    · rintro ⟨e, he⟩ ⟨w, hp, hname, hlat, hlon⟩
      have hok := generateWalk_ok parse text hne w hp
        (by rw [hname, hlat, hlon]; rfl)
      rw [hok] at he
      cases he
    · intro hno
      cases hp : parse (stripFences text) with
      | none => exact ⟨_, generateWalk_err_badjson parse text hne hp⟩
      | some j =>
        by_cases ht : (jsonTruthy (j.get "name") && jsonTruthy (j.get "lat")
            && jsonTruthy (j.get "lon")) = true
        · exfalso
          apply hno
          simp only [Bool.and_eq_true] at ht
          exact ⟨j, hp, ht.1.1, ht.1.2, ht.2⟩
        · rw [Bool.not_eq_true] at ht
          exact ⟨_, generateWalk_err_missing parse text hne j hp ht⟩

def walkJson : Json :=
  .obj [("name", .str "Orrest Head"), ("lat", .num 54), ("lon", .num (-3))]

def jsonOracle : String → Option Json := fun s =>
  if s = "hello" then some walkJson else none

theorem stripFences_on_fenced : stripFences "```json\nhello\n```" = "hello" := by
  decide

/-- Witness for C7: a fenced response is stripped to `"hello"`, parsed by
the oracle, and accepted because `name`, `lat`, `lon` are all truthy. -/
theorem C7_suggest_walk_witness :
    generateWalkFromPrompt jsonOracle "```json\nhello\n```" = .ok walkJson := by
  refine ((C7_suggest_walk jsonOracle "```json\nhello\n```" (by decide)).1
    walkJson).mpr ⟨?_, ?_, ?_, ?_⟩
  · rw [stripFences_on_fenced]
    rfl
  · decide
  · decide
  · decide

/-! ## C8 — the same-origin routing proxy -/

/-- C8 counterexample: the routing service replies with success status
201, but the proxy replies 200 — the status code of a success response is
NOT relayed unchanged, contradicting "relays the service's response body
and status code unchanged (both on success and on non-success status)". -/
theorem C8_counterexample :
    (orsHandler "POST" (some "key") Json.null
        (fun _ => .reply 201 (.str "created"))).status = 200
    ∧ (201 : ℕ) ≠ 200 := by
  exact ⟨rfl, by decide⟩

/-- C8 amended: the proxy replies 200 to OPTIONS (with or without a key),
500 to a POST when no key is configured, forwards the request body
verbatim (its reply depends on the service only through the service's
answer at `req.body`), relays the decoded response body, and relays the
status unchanged for non-2xx responses — but any 2xx service status is
collapsed to 200, and a transport failure becomes a 500. -/
theorem C8_amended (key : String) (body : Json)
    (service : Json → ServiceOutcome) :
    (∀ (s1 s2 : Json → ServiceOutcome) (m : String) (k : Option String)
        (b : Json), s1 b = s2 b → orsHandler m k b s1 = orsHandler m k b s2)
    ∧ (∀ k : Option String,
        orsHandler "OPTIONS" k body service = { status := 200, body := none })
    ∧ orsHandler "POST" none body service
        = { status := 500,
            body := some (errorJson "ORS API key not configured") }
    ∧ (∀ m, service body = .netError m →
        orsHandler "POST" (some key) body service
          = { status := 500, body := some (errorJson m) })
    ∧ (∀ s d, service body = .reply s d → 200 ≤ s → s ≤ 299 →
        orsHandler "POST" (some key) body service
          = { status := 200, body := some d })
    ∧ (∀ s d, service body = .reply s d → ¬(200 ≤ s ∧ s ≤ 299) →
        orsHandler "POST" (some key) body service
          = { status := s, body := some d }) := by
  refine ⟨?_, ?_, rfl, ?_, ?_, ?_⟩
  · intro s1 s2 m k b hsb
    unfold orsHandler
    rw [hsb]
  · intro k
    rfl
  · intro m hm
    unfold orsHandler
    rw [hm]
    rfl
  · intro s d hr h200 h299
    unfold orsHandler
    rw [hr]
    simp [h200, h299]
  · intro s d hr hnot
    unfold orsHandler
    rw [hr]
    simp [hnot]

/-- Witness for the amended C8 at concrete requests. -/
theorem C8_amended_witness :
    orsHandler "OPTIONS" none Json.null (fun _ => .netError "x")
      = { status := 200, body := none }
    ∧ orsHandler "POST" none Json.null (fun _ => .netError "x")
      = { status := 500,
          body := some (errorJson "ORS API key not configured") }
    ∧ orsHandler "POST" (some "key") Json.null
        (fun _ => .reply 404 (.str "not found"))
      = { status := 404, body := some (.str "not found") } := by
  have h := C8_amended "key" Json.null (fun _ => .reply 404 (.str "not found"))
  have h2 := C8_amended "key" Json.null (fun _ => .netError "x")
  exact ⟨h2.2.1 none, h2.2.2.1,
    h.2.2.2.2.2 404 (.str "not found") rfl (by decide)⟩

/-! ## C9 — deterministic offset destination for degenerate circular drafts -/

theorem aiRouteRequest_offset (w : AIWalk)
    (hloop : w.loopWaypoints.length < 2)
    (hcirc : aiIsCircular w = true)
    (hdLat : |aiDestLat w - w.lat| ≤ 0.001)
    (hdLon : |aiDestLon w - w.lon| ≤ 0.001) :
    aiRouteRequest w = .circular (w.lat, w.lon) (w.lat + 0.008, w.lon + 0.005) := by
  have hcond : (decide (|aiDestLat w - w.lat| > 0.001)
      || decide (|aiDestLon w - w.lon| > 0.001)) = false := by
    simp only [Bool.or_eq_false_iff, decide_eq_false_iff_not, not_lt]
    exact ⟨hdLat, hdLon⟩
  rw [aiRouteRequest, if_neg (by omega), if_pos hcirc, if_neg (by
    rw [hcond]
    exact Bool.false_ne_true)]

/-- C9: for a circular draft without via-points whose destination hint is
absent or within ε = 0.001 of the start (`aiDestLat`/`aiDestLon` fall
back to the start coordinates when the hints are missing), the assembly
requests the circular route to the fixed offset `(lat + 0.008,
lon + 0.005)` — and consequently any two drafts with the same start
coordinates in this situation produce the identical routing request:
assembly is a deterministic function of the draft. -/
theorem C9_deterministic_offset (w : AIWalk)
    (hloop : w.loopWaypoints.length < 2)
    (hcirc : aiIsCircular w = true)
    (hdLat : |aiDestLat w - w.lat| ≤ 0.001)
    (hdLon : |aiDestLon w - w.lon| ≤ 0.001) :
    aiRouteRequest w = .circular (w.lat, w.lon) (w.lat + 0.008, w.lon + 0.005)
    ∧ (∀ v : AIWalk, v.lat = w.lat → v.lon = w.lon →
        v.loopWaypoints.length < 2 → aiIsCircular v = true →
        |aiDestLat v - v.lat| ≤ 0.001 → |aiDestLon v - v.lon| ≤ 0.001 →
        aiRouteRequest v = aiRouteRequest w) := by
  refine ⟨aiRouteRequest_offset w hloop hcirc hdLat hdLon, ?_⟩
  intro v hlat hlon hl hc hd1 hd2
  rw [aiRouteRequest_offset v hl hc hd1 hd2,
    aiRouteRequest_offset w hloop hcirc hdLat hdLon, hlat, hlon]

def degenerateCircWalk : AIWalk :=
  { name := "deg", lat := 54, lon := -3, endLat := none, endLon := none,
    destinationLat := none, destinationLon := none, isCircular := none,
    loopWaypoints := [], distance := "", time := "", waypoints := [] }

/-- Witness for C9 at a concrete circular draft with no destination hint:
the forced destination is the fixed offset from the start. -/
theorem C9_deterministic_offset_witness :
    aiRouteRequest degenerateCircWalk
      = .circular (54, -3) (54 + 0.008, -3 + 0.005) := by
  have h := C9_deterministic_offset degenerateCircWalk (by decide)
    (by simp [aiIsCircular, aiEndLat, aiEndLon, jsOr, degenerateCircWalk]; norm_num)
    (by simp [aiDestLat, aiEndLat, jsOr, degenerateCircWalk]; norm_num)
    (by simp [aiDestLon, aiEndLon, jsOr, degenerateCircWalk]; norm_num)
  exact h.1

/-! ## C10 — walk library load with a corrupt snapshot -/

/-- C10: `loadWalks` never throws on a corrupt snapshot — when the stored
snapshot exists but does not parse, it is treated as an empty list, the
bundled default set is returned and re-persisted; a clean non-empty
cached snapshot is returned as-is; a version mismatch or missing/empty
snapshot also yields the (re-persisted) bundled set. -/
theorem C10_load_walks (parse : String → Option (List Walk))
    (stringify : List Walk → String) (defaults : List Walk)
    (st : WalkStore) (s : String) :
    (st.version = some WALKS_VERSION → st.snapshot = some s →
      parse s = none →
      loadWalks parse stringify defaults st
        = (defaults, { version := some WALKS_VERSION,
                       snapshot := some (stringify defaults) }))
    ∧ (∀ l, st.version = some WALKS_VERSION → st.snapshot = some s →
        parse s = some l → l ≠ [] →
        loadWalks parse stringify defaults st = (l, st))
    ∧ (st.version ≠ some WALKS_VERSION →
        loadWalks parse stringify defaults st
          = (defaults, { version := some WALKS_VERSION,
                         snapshot := some (stringify defaults) })) := by
  refine ⟨?_, ?_, ?_⟩
  · intro hv hs hp
    have hv2 : ¬ st.version ≠ some WALKS_VERSION := by simp [hv]
    simp [loadWalks, hv2, hs, hp, hv]
  · intro l hv hs hp hl
    have hv2 : ¬ st.version ≠ some WALKS_VERSION := by simp [hv]
    have hlen : l.length ≠ 0 := by simpa using hl
    simp [loadWalks, hv2, hs, hp, hlen]
  · intro hv
    simp [loadWalks, hv]

def corruptStore : WalkStore :=
  { version := some "1.1", snapshot := some "not json" }

def noParse : String → Option (List Walk) := fun _ => none

def constStringify : List Walk → String := fun _ => "[]"

/-- Witness for C10: a corrupt snapshot under the current version is
discarded and the bundled defaults are returned and re-persisted. -/
theorem C10_load_walks_witness :
    loadWalks noParse constStringify [] corruptStore
      = ([], { version := some WALKS_VERSION, snapshot := some "[]" }) := by
  exact (C10_load_walks noParse constStringify [] corruptStore
    "not json").1 rfl rfl rfl
